import Mathlib

/-!
# Verification of the invoice-extractor pipeline

Shallow embedding of the two source variants (`invoice_extractor.py` and
`invoice_extractor_groq.py`) of the PetrAPConsulting/Invoice_extractor
repository, together with proofs about the claims of its design
specification.

Modelling conventions:
* Python strings are Lean `String`s; `str.upper`, `str.lower`, `str.isdigit`
  and friends are modelled on their ASCII behaviour (every input the claims
  exercise is ASCII).
* An XML document already parsed by `xml.etree.ElementTree` is modelled by
  the tree type `Xml` below; tags are local names (all elements of the
  registry responses live in the single `rozhraniCRPDPH` namespace, so the
  `ns:` qualification of the Python search strings carries no information).
  A response string that fails `ET.fromstring` is modelled as `none`.
* The network is modelled as an oracle `String → NetResult` mapping the
  numeric VAT body sent in the SOAP envelope to the outcome of
  `requests.post`: a raised exception, or an HTTP status together with a
  body (`none` when the body is not well-formed XML).
* A value that may flow into `check_vat_reliability` is a `PyVal`:
  a string, or a non-string Python value (the code only ever asks
  `isinstance(v, str)` of it).
-/

/-- A parsed XML element: local tag name, attributes, text node, children.
Models the `xml.etree.ElementTree.Element` values the two
`parse_vat_response` functions traverse. -/
inductive Xml where
  | elem (tag : String) (attrs : List (String × String)) (text : Option String)
      (children : List Xml)

/-- Local tag name of an element. -/
def Xml.tagName : Xml → String
  | .elem t _ _ _ => t

/-- `element.get(key, dflt)`: attribute lookup with default. -/
def Xml.getAttr (x : Xml) (key dflt : String) : String :=
  match x with
  | .elem _ attrs _ _ => ((attrs.lookup key).getD dflt)

/-- `element.text`: the text node, `none` when absent. -/
def Xml.textVal : Xml → Option String
  | .elem _ _ t _ => t

mutual

/-- `element.findall('.//tag')`: all proper descendants with the given tag,
in document (preorder) order.  `element.find('.//tag')` is its `head?`. -/
def Xml.findDesc (tag : String) : Xml → List Xml
  | .elem _ _ _ cs => Xml.findDescList tag cs

/-- Descendant search over a list of sibling elements, document order. -/
def Xml.findDescList (tag : String) : List Xml → List Xml
  | [] => []
  | c :: cs =>
      (if c.tagName = tag then [c] else []) ++ Xml.findDesc tag c
        ++ Xml.findDescList tag cs

end

/-- A Python value reaching `check_vat_reliability`: a string, or any
non-string value (the code immediately rejects the latter via
`isinstance(vat_number, str)`). -/
inductive PyVal where
  | str (s : String)
  | nonStr

/-- Outcome of the `requests.post` call to the registry: `fail` models a
raised network exception; `ok status body` models a response with the given
HTTP status code whose text parses to `body` (`none` when `ET.fromstring`
would raise `ParseError`). -/
inductive NetResult where
  | fail
  | ok (status : Nat) (body : Option Xml)

/-- Python `str.replace(" ", "")`: remove every space character.
(Defined on the character list so that it evaluates inside the kernel.) -/
def pyStripSpaces (s : String) : String :=
  String.mk (s.data.filter (fun c => c != ' '))

/-- Python `str.upper()` (ASCII fragment). -/
def pyUpper (s : String) : String :=
  String.mk (s.data.map Char.toUpper)

/-- Python `str.lower()` (ASCII fragment). -/
def pyLower (s : String) : String :=
  String.mk (s.data.map Char.toLower)

/-- Python `str.startswith(p)`. -/
def pyStartsWith (s p : String) : Bool :=
  p.data.isPrefixOf s.data

/-- Python `str.endswith(p)`. -/
def pyEndsWith (s p : String) : Bool :=
  p.data.isSuffixOf s.data

/-- Python whitespace (ASCII fragment of `str.strip()`). -/
def pySpace (c : Char) : Bool :=
  c == ' ' || c == '\t' || c == '\n' || c == '\r' || c == Char.ofNat 11 || c == Char.ofNat 12

/-- Python `str.strip()`: drop leading and trailing whitespace. -/
def pyStrip (s : String) : String :=
  String.mk (((s.data.dropWhile pySpace).reverse.dropWhile pySpace).reverse)

/-- Python slicing `s[n:]`. -/
def pyDrop (s : String) (n : Nat) : String :=
  String.mk (s.data.drop n)

/-- Python slicing `s[:-n]`: drop the last `n` characters. -/
def pyDropRight (s : String) (n : Nat) : String :=
  String.mk (s.data.take (s.data.length - n))

/-- Loop body of `InvoiceExtractor.parse_vat_response` in
`invoice_extractor.py` (lines 155–163): scan the `StatusNespolehlivyPlatce`
elements for one whose nested `dic` text equals the queried number and read
its nested `nespolehlivy` text.  Result: `none` — the loop fell through;
`some none` — `nespolehlivy.text` was `None`, so `.lower()` raised
`AttributeError`, caught by the function's generic handler;
`some (some b)` — the loop returned `b`. -/
def vatTextLoop (vat : String) : List Xml → Option (Option Bool)
  | [] => none
  | p :: ps =>
    match (p.findDesc "dic").head? with
    | some d =>
      if d.textVal = some vat then
        match (p.findDesc "nespolehlivy").head? with
        | some n =>
          match n.textVal with
          | some t => some (some (!(pyLower t == "true")))
          | none => some none
        | none => vatTextLoop vat ps
      else vatTextLoop vat ps
    | none => vatTextLoop vat ps

/-- `InvoiceExtractor.parse_vat_response` of `invoice_extractor.py`
(lines 135–179): text-node lookup on `StatusNespolehlivyPlatce` elements.
The argument is the parsed response (`none` = `ET.ParseError`).  Returns
`some true` (reliable), `some false` (unreliable) or `none`
(undetermined). -/
def parse_vat_response (xml : Option Xml) (vat_number : String) : Option Bool :=
  match xml with
  | none => none
  | some root =>
    match (root.findDesc "status").head? with
    | none => none
    | some status_elem =>
      if status_elem.getAttr "statusCode" "" = "0" then
        match vatTextLoop vat_number (root.findDesc "StatusNespolehlivyPlatce") with
        | some r => r
        | none => some true
      else none

/-- Loop body of `InvoiceExtractor.parse_vat_response` in
`invoice_extractor_groq.py` (lines 240–264): scan the `statusPlatceDPH`
elements for one whose `dic` attribute equals the queried number and map its
`nespolehlivyPlatce` attribute; `some false` after the loop models the
post-loop `return False` (number not among the returned records). -/
def vatAttrLoop (vat : String) : List Xml → Option Bool
  | [] => some false
  | p :: ps =>
    let dic_value := p.getAttr "dic" ""
    let nespolehlivy_value := p.getAttr "nespolehlivyPlatce" ""
    if dic_value = vat then
      if nespolehlivy_value = "NENALEZEN" then some false
      else if nespolehlivy_value = "ANO" then some false
      else if nespolehlivy_value = "NE" ∨ nespolehlivy_value = "" then some true
      else some true
    else vatAttrLoop vat ps

/-- `InvoiceExtractor.parse_vat_response` of `invoice_extractor_groq.py`
(lines 213–282): attribute-based lookup on `statusPlatceDPH` elements.
The argument is the parsed response (`none` = `ET.ParseError`). -/
def parse_vat_response_groq (xml : Option Xml) (vat_number : String) : Option Bool :=
  match xml with
  | none => none
  | some root =>
    match (root.findDesc "status").head? with
    | none => none
    | some status_elem =>
      if status_elem.getAttr "statusCode" "" = "0" then
        let platce_elements := root.findDesc "statusPlatceDPH"
        if platce_elements.isEmpty then some false
        else vatAttrLoop vat_number platce_elements
      else none

/-- Concrete registry response on which the two variants disagree: status
code `0` and one attribute-style `statusPlatceDPH` record marking
`12345678` as unreliable (`nespolehlivyPlatce="ANO"`). -/
def mixedResponse : Xml :=
  .elem "SeznamNespolehlivyPlatceResponse" [] none
    [ .elem "status" [("statusCode", "0")] none []
    , .elem "statusPlatceDPH" [("dic", "12345678"), ("nespolehlivyPlatce", "ANO")] none [] ]

/-- Python `str.isdigit()` (ASCII fragment): non-empty and all characters
decimal digits. -/
def pyIsdigit (s : String) : Bool :=
  !s.data.isEmpty && s.data.all Char.isDigit

/-- `InvoiceExtractor.check_vat_reliability` of `invoice_extractor.py`
(lines 84–133), with the network abstracted as the oracle `registry`.
Every `return None` path of the Python function (non-string input, falsy
input, non-CZ prefix, ill-formed numeric body, raised network exception,
non-200 status) is `none` here; a 200 response is handed to
`parse_vat_response` together with the numeric body. -/
def check_vat_reliability (registry : String → NetResult) (v : PyVal) :
    Option Bool :=
  match v with
  | .nonStr => none
  | .str s =>
    if s = "" then none
    else
      let vat_clean := pyUpper (pyStripSpaces s)
      if !(pyStartsWith vat_clean "CZ") then none
      else
        let vat_numeric := pyDrop vat_clean 2
        if !(pyIsdigit vat_numeric) ∨ vat_numeric.length < 8 ∨ vat_numeric.length > 10 then
          none
        else
          match registry vat_numeric with
          | .fail => none
          | .ok status body =>
            if status = 200 then parse_vat_response body vat_numeric else none

/-- `InvoiceExtractor.check_vat_reliability` of `invoice_extractor_groq.py`
(lines 162–211): textually identical to the other variant except that the
200-response is handed to `parse_vat_response_groq`. -/
def check_vat_reliability_groq (registry : String → NetResult) (v : PyVal) :
    Option Bool :=
  match v with
  | .nonStr => none
  | .str s =>
    if s = "" then none
    else
      let vat_clean := pyUpper (pyStripSpaces s)
      if !(pyStartsWith vat_clean "CZ") then none
      else
        let vat_numeric := pyDrop vat_clean 2
        if !(pyIsdigit vat_numeric) ∨ vat_numeric.length < 8 ∨ vat_numeric.length > 10 then
          none
        else
          match registry vat_numeric with
          | .fail => none
          | .ok status body =>
            if status = 200 then parse_vat_response_groq body vat_numeric else none

/-- The reliability verdicts of the specification's state machine (§3/§4.4);
`NoVATNumber` arises only at the orchestrator and is represented there by
the sentinel field value, so it is not a constructor here. -/
inductive Verdict where
  | reliable
  | unreliable
  | notFound
  | serviceUnavailable
  | ineligible
deriving DecidableEq, Repr

/-- The boolean/None encoding the Python code uses for each verdict:
`check_vat_reliability*` returns `True` for a reliable classification,
`False` for an unreliable or not-found one, and `None` for a service
failure or an ineligible identifier. -/
def verdictBool : Verdict → Option Bool
  | .reliable => some true
  | .unreliable => some false
  | .notFound => some false
  | .serviceUnavailable => none
  | .ineligible => none

/-- Verdict taken by the record loop of the groq `parse_vat_response`,
read off the branch the code takes (each branch is labelled by its log
message, lines 236, 253–264 and 267 of `invoice_extractor_groq.py`):
an empty list or a list without a matching `dic` attribute logs
"not found"; a match logs "not found" for flag `NENALEZEN`, "unreliable"
for `ANO`, "reliable" for `NE`/empty, and "assuming reliable"
otherwise. -/
def classifyRecords (vat : String) : List Xml → Verdict
  | [] => .notFound
  | p :: ps =>
    let dic_value := p.getAttr "dic" ""
    let nespolehlivy_value := p.getAttr "nespolehlivyPlatce" ""
    if dic_value = vat then
      if nespolehlivy_value = "NENALEZEN" then .notFound
      else if nespolehlivy_value = "ANO" then .unreliable
      else if nespolehlivy_value = "NE" ∨ nespolehlivy_value = "" then .reliable
      else .reliable
    else classifyRecords vat ps

/-- Verdict of the groq `parse_vat_response` on a full response: service
failure when the XML does not parse, has no `status` element or a
non-zero status code; otherwise the record-loop verdict. -/
def classify_parse_groq (xml : Option Xml) (vat : String) : Verdict :=
  match xml with
  | none => .serviceUnavailable
  | some root =>
    match (root.findDesc "status").head? with
    | none => .serviceUnavailable
    | some status_elem =>
      if status_elem.getAttr "statusCode" "" = "0" then
        classifyRecords vat (root.findDesc "statusPlatceDPH")
      else .serviceUnavailable

/-- Verdict of the groq `check_vat_reliability`: ineligible on every path
that returns `None` before the network call (non-string, empty, non-CZ
prefix, ill-formed body), service failure on a raised request or non-200
status, and the parse verdict otherwise. -/
def classify_check_groq (registry : String → NetResult) (v : PyVal) : Verdict :=
  match v with
  | .nonStr => .ineligible
  | .str s =>
    if s = "" then .ineligible
    else
      let vat_clean := pyUpper (pyStripSpaces s)
      if !(pyStartsWith vat_clean "CZ") then .ineligible
      else
        let vat_numeric := pyDrop vat_clean 2
        if !(pyIsdigit vat_numeric) ∨ vat_numeric.length < 8 ∨ vat_numeric.length > 10 then
          .ineligible
        else
          match registry vat_numeric with
          | .fail => .serviceUnavailable
          | .ok status body =>
            if status = 200 then classify_parse_groq body vat_numeric
            else .serviceUnavailable

/-- The flag enumeration in the specification's own order (§4.4): `"ANO"` →
Unreliable; `"NE"` or empty → Reliable; `"NENALEZEN"` → NotFound; any other
value → Reliable. -/
def specFlagVerdict (flag : String) : Verdict :=
  if flag = "ANO" then .unreliable
  else if flag = "NE" ∨ flag = "" then .reliable
  else if flag = "NENALEZEN" then .notFound
  else .reliable

/-- JSON values as produced by `json.loads`.  Numbers keep their source
lexeme (the claims never compute with numeric magnitudes; only zero-ness
matters, for Python truthiness). -/
inductive Json where
  | null
  | bool (b : Bool)
  | num (lexeme : String)
  | str (s : String)
  | arr (xs : List Json)
  | obj (kvs : List (String × Json))

/-- Double-quote character. -/
def qCh : Char := Char.ofNat 34

/-- Backslash character. -/
def bsCh : Char := Char.ofNat 92

/-- Opening curly brace character. -/
def obCh : Char := Char.ofNat 123

/-- Closing curly brace character. -/
def cbCh : Char := Char.ofNat 125

/-- Python dict assignment `d[k] = v`: replace the value in place when the
key exists, otherwise append the pair at the end (insertion order). -/
def setKey (kvs : List (String × Json)) (k : String) (v : Json) :
    List (String × Json) :=
  if kvs.any (fun p => p.1 == k) then
    kvs.map (fun p => if p.1 == k then (k, v) else p)
  else kvs ++ [(k, v)]

/-- Python dict construction from a key/value pair list (later duplicate
keys overwrite earlier ones in place). -/
def buildObj (pairs : List (String × Json)) : Json :=
  .obj (pairs.foldl (fun d p => setKey d p.1 p.2) [])

/-- The four whitespace characters of the JSON grammar. -/
def jsonSkipWs : List Char → List Char
  | [] => []
  | c :: cs =>
    if c = ' ' ∨ c = '\t' ∨ c = '\n' ∨ c = '\r' then jsonSkipWs cs else c :: cs

/-- Hexadecimal digit value. -/
def hexDigit (c : Char) : Option Nat :=
  if c.isDigit then some (c.toNat - 48)
  else if 'a' ≤ c ∧ c ≤ 'f' then some (c.toNat - 87)
  else if 'A' ≤ c ∧ c ≤ 'F' then some (c.toNat - 55)
  else none

/-- Longest run of decimal digits at the front, plus the rest. -/
def jsonDigits : List Char → List Char × List Char
  | [] => ([], [])
  | c :: cs =>
    if c.isDigit then
      let (d, r) := jsonDigits cs
      (c :: d, r)
    else ([], c :: cs)

/-- JSON string body after the opening quote.  Models Python's scanner:
unescaped control characters are rejected, the listed escapes and `\uXXXX`
are decoded (surrogate pairing is out of the modelled fragment). -/
def jsonStringBody : Nat → List Char → List Char → Option (String × List Char)
  | 0, _, _ => none
  | _, [], _ => none
  | fuel + 1, c :: cs, acc =>
    if c = qCh then some (String.mk acc.reverse, cs)
    else if c = bsCh then
      match cs with
      | [] => none
      | e :: cs2 =>
        if e = qCh ∨ e = bsCh ∨ e = '/' then jsonStringBody fuel cs2 (e :: acc)
        else if e = 'n' then jsonStringBody fuel cs2 ('\n' :: acc)
        else if e = 't' then jsonStringBody fuel cs2 ('\t' :: acc)
        else if e = 'r' then jsonStringBody fuel cs2 ('\r' :: acc)
        else if e = 'b' then jsonStringBody fuel cs2 (Char.ofNat 8 :: acc)
        else if e = 'f' then jsonStringBody fuel cs2 (Char.ofNat 12 :: acc)
        else if e = 'u' then
          match cs2 with
          | h1 :: h2 :: h3 :: h4 :: cs3 =>
            match hexDigit h1, hexDigit h2, hexDigit h3, hexDigit h4 with
            | some a, some b, some c2, some d =>
              jsonStringBody fuel cs3
                (Char.ofNat (((a * 16 + b) * 16 + c2) * 16 + d) :: acc)
            | _, _, _, _ => none
          | _ => none
        else none
    else if c.toNat < 32 then none
    else jsonStringBody fuel cs (c :: acc)

/-- Greedy match of the JSON number regular expression
`-?(0|[1-9][0-9]*)(\.[0-9]+)?([eE][+-]?[0-9]+)?`, returning the lexeme and
the rest; `none` when no number starts here. -/
def jsonNumberLex (cs : List Char) : Option (Json × List Char) :=
  let (sign, cs1) :=
    match cs with
    | c :: r => if c = '-' then ([c], r) else ([], c :: r)
    | [] => ([], ([] : List Char))
  match cs1 with
  | [] => none
  | c :: r =>
    if !c.isDigit then none
    else
      let (ip, rest1) :=
        if c = '0' then ([c], r)
        else
          let (d, r2) := jsonDigits r
          (c :: d, r2)
      let (fp, rest2) :=
        match rest1 with
        | d :: r3 =>
          if d = '.' then
            match jsonDigits r3 with
            | ([], _) => (([] : List Char), d :: r3)
            | (ds, r4) => (d :: ds, r4)
          else ([], d :: r3)
        | [] => ([], [])
      let (ep, rest3) :=
        match rest2 with
        | e :: r5 =>
          if e = 'e' ∨ e = 'E' then
            let (sg, r6) :=
              match r5 with
              | s2 :: r7 => if s2 = '+' ∨ s2 = '-' then ([s2], r7) else ([], s2 :: r7)
              | [] => ([], ([] : List Char))
            match jsonDigits r6 with
            | ([], _) => (([] : List Char), e :: r5)
            | (ds, r8) => (e :: (sg ++ ds), r8)
          else ([], e :: r5)
        | [] => ([], [])
      some (.num (String.mk (sign ++ ip ++ fp ++ ep)), rest3)

mutual

/-- One JSON value (with leading whitespace), returning the value and the
unconsumed rest.  Fuel-indexed; `jsonParse` supplies ample fuel. -/
def jsonVal : Nat → List Char → Option (Json × List Char)
  | 0, _ => none
  | fuel + 1, cs =>
    match jsonSkipWs cs with
    | [] => none
    | c :: rest =>
      if c = qCh then
        match jsonStringBody fuel rest [] with
        | some (s, r) => some (.str s, r)
        | none => none
      else if c = '[' then
        match jsonSkipWs rest with
        | c2 :: r2 =>
          if c2 = ']' then some (.arr [], r2)
          else jsonArrItems fuel (c2 :: r2) []
        | [] => none
      else if c = obCh then
        match jsonSkipWs rest with
        | c2 :: r2 =>
          if c2 = cbCh then some (.obj [], r2)
          else jsonObjItems fuel (c2 :: r2) []
        | [] => none
      else if c = 't' then
        match rest with
        | 'r' :: 'u' :: 'e' :: r => some (.bool true, r)
        | _ => none
      else if c = 'f' then
        match rest with
        | 'a' :: 'l' :: 's' :: 'e' :: r => some (.bool false, r)
        | _ => none
      else if c = 'n' then
        match rest with
        | 'u' :: 'l' :: 'l' :: r => some (.null, r)
        | _ => none
      else if c = '-' ∨ c.isDigit then jsonNumberLex (c :: rest)
      else none

/-- Comma-separated array items up to the closing bracket. -/
def jsonArrItems : Nat → List Char → List Json → Option (Json × List Char)
  | 0, _, _ => none
  | fuel + 1, cs, acc =>
    match jsonVal fuel cs with
    | none => none
    | some (v, r) =>
      match jsonSkipWs r with
      | c :: r2 =>
        if c = ',' then jsonArrItems fuel r2 (v :: acc)
        else if c = ']' then some (.arr (v :: acc).reverse, r2)
        else none
      | [] => none

/-- Comma-separated object members up to the closing brace; the resulting
object is built with Python dict semantics (`buildObj`). -/
def jsonObjItems : Nat → List Char → List (String × Json) → Option (Json × List Char)
  | 0, _, _ => none
  | fuel + 1, cs, acc =>
    match jsonSkipWs cs with
    | c :: r =>
      if c = qCh then
        match jsonStringBody fuel r [] with
        | none => none
        | some (k, r2) =>
          match jsonSkipWs r2 with
          | c2 :: r3 =>
            if c2 = ':' then
              match jsonVal fuel r3 with
              | none => none
              | some (v, r4) =>
                match jsonSkipWs r4 with
                | c3 :: r5 =>
                  if c3 = ',' then jsonObjItems fuel r5 ((k, v) :: acc)
                  else if c3 = cbCh then some (buildObj ((k, v) :: acc).reverse, r5)
                  else none
                | [] => none
            else none
          | [] => none
      else none
    | [] => none

end

/-- Model of Python `json.loads` on the grammar fragment above: a single
top-level value; any non-whitespace trailing text is an error
("Extra data"). -/
def jsonParse (s : String) : Option Json :=
  match jsonVal (2 * s.length + 4) s.data with
  | some (v, rest) => if (jsonSkipWs rest).isEmpty then some v else none
  | none => none

/-- Python truthiness of a JSON number: false exactly for a zero value,
i.e. when the mantissa (the lexeme up to any exponent marker) has no
non-zero digit.  (Float underflow of astronomically small exponents is
outside the model.) -/
def numLexTruthy (lexeme : String) : Bool :=
  (lexeme.data.takeWhile (fun c => c != 'e' && c != 'E')).any
    (fun c => c.isDigit && c != '0')

/-- Python truthiness of a decoded JSON value (`if extracted_data['vat_number']:`). -/
def jsonTruthy : Json → Bool
  | .null => false
  | .bool b => b
  | .num lexeme => numLexTruthy lexeme
  | .str s => s != ""
  | .arr xs => !xs.isEmpty
  | .obj kvs => !kvs.isEmpty

/-- Dict lookup: `d[k]` guarded by `k in d` (`none` when the key is absent). -/
def lookupKey (kvs : List (String × Json)) (k : String) : Option Json :=
  (kvs.find? (fun p => p.1 == k)).map Prod.snd

/-- View of a decoded JSON value as the argument of
`check_vat_reliability`: only strings survive its `isinstance` guard. -/
def jsonToPy : Json → PyVal
  | .str s => .str s
  | _ => .nonStr

/-- Key list of a decoded object, in insertion order. -/
def recordKeys (kvs : List (String × Json)) : List String :=
  kvs.map Prod.fst

/-- The twelve keys of the `InvoiceRecord` schema, in the order of the JSON
template embedded in both system prompts. -/
def invoiceRecordKeys : List String :=
  ["supplier_name", "vat_number", "invoice_number", "date_of_sale",
   "due_date", "duzp", "amount_without_VAT_21", "VAT_21",
   "amount_without_VAT_12", "VAT_12", "total_amount_with_VAT",
   "reliable_VAT_payer"]

/-- The fence-stripping of `process_invoice` (lines 246–254 / 364–372):
strip surrounding whitespace, drop a leading literal `` ```json `` (seven
characters) when present, drop a trailing ``` when present, strip again. -/
def cleanResponse (raw : String) : String :=
  let t0 := pyStrip raw
  let t1 := if pyStartsWith t0 "```json" then pyDrop t0 7 else t0
  let t2 := if pyEndsWith t1 "```" then pyDropRight t1 3 else t1
  pyStrip t2

/-- Value stored in the `reliable_VAT_payer` field: Python boolean or
sentinel string. -/
inductive FieldVal where
  | bool (b : Bool)
  | str (s : String)
deriving DecidableEq, Repr

/-- The `reliable_VAT_payer` assignment of `process_invoice`
(`invoice_extractor_groq.py` lines 378–391, textually identical in
`invoice_extractor.py` lines 260–273): a truthy `vat_number` value is
checked and a non-`None` result stored as a boolean, a `None` result as
the sentinel `"Unable to verify"`; an absent or falsy `vat_number` yields
the sentinel `"No VAT number found"` with no check. -/
def reliableVatField (registry : String → NetResult) (vat_field : Option Json) :
    FieldVal :=
  match vat_field with
  | none => .str "No VAT number found"
  | some v =>
    if jsonTruthy v then
      match check_vat_reliability_groq registry (jsonToPy v) with
      | some b => .bool b
      | none => .str "Unable to verify"
    else .str "No VAT number found"

/-- A `FieldVal` as the JSON value it serialises to. -/
def fieldJson : FieldVal → Json
  | .bool b => .bool b
  | .str s => .str s

/-- Outcome of the response-handling tail of `process_invoice`:
a returned record; the `json.JSONDecodeError` branch, which prints the
(fence-stripped) text it failed on and returns `None`; or the outer
`except Exception` branch (reached e.g. when the decoded value is not a
dict, so indexing raises `TypeError`), which retains no response text and
returns `None`. -/
inductive ParseOutcome where
  | record (kvs : List (String × Json))
  | jsonError (detail : String)
  | otherError

/-- Decode-and-handle stage of `process_invoice`, applied to the already
fence-stripped text: `json.loads`, and on a decoded dict the
`reliable_VAT_payer` assignment. -/
def processDecoded (registry : String → NetResult) (response_text : String) :
    ParseOutcome :=
  match jsonParse response_text with
  | none => .jsonError response_text
  | some (.obj kvs) =>
    .record (setKey kvs "reliable_VAT_payer"
      (fieldJson (reliableVatField registry (lookupKey kvs "vat_number"))))
  | some _ => .otherError

/-- Response-handling tail of `process_invoice` (lines 245–283 / 363–401),
from the raw backend text to the returned record: fence-strip, decode,
and on a decoded dict set `reliable_VAT_payer`. -/
def processResponse (registry : String → NetResult) (raw : String) :
    ParseOutcome :=
  processDecoded registry (cleanResponse raw)

/-- The per-document stages `process_invoice` composes, abstracted:
`normalize` is the extension dispatch plus `pdf_to_image`/`encode_image`
(which run *outside* the function's `try` block and therefore propagate
exceptions, modelled as `Except.error`); `backend` is the vision-API call
(inside the `try`; its failure is caught); `registry` is the VAT
registry. -/
structure Stages where
  normalize : String → Except Unit String
  backend : String → Except Unit String
  registry : String → NetResult

/-- `InvoiceExtractor.process_invoice` (lines 193–283 / 296–401):
a normalization failure propagates to the caller (`Except.error`); every
failure inside the `try` block yields `ok none` (the Python `return None`);
success yields the extracted record. -/
def process_invoice (st : Stages) (file : String) :
    Except Unit (Option (List (String × Json))) :=
  match st.normalize file with
  | .error e => .error e
  | .ok img =>
    match st.backend img with
    | .error _ => .ok none
    | .ok raw =>
      match processResponse st.registry raw with
      | .record kvs => .ok (some kvs)
      | .jsonError _ => .ok none
      | .otherError => .ok none

/-- `InvoiceExtractor.process_all_invoices` (lines 294–316 / 412–434): the
bare `for` loop over the discovered files.  Each iteration calls
`process_invoice` with no surrounding `try`, so a propagated exception
aborts the whole batch; otherwise the outcome (persisted record, or `none`
for a recorded failure) is collected and the loop continues. -/
def process_all_invoices (st : Stages) :
    List String → Except Unit (List (String × Option (List (String × Json))))
  | [] => .ok []
  | f :: fs =>
    match process_invoice st f with
    | .error e => .error e
    | .ok r =>
      match process_all_invoices st fs with
      | .error e => .error e
      | .ok rs => .ok ((f, r) :: rs)

/-- Which of the fallible operations of `pdf_to_image` succeed in a given
run: `openOk` covers `fitz.open`, the page access and `get_pixmap`/
`tobytes` (before the temporary file exists); `writeOk` covers
`open(temp_image_path, "wb")` (a failed open creates no file); `encodeOk`
covers the `encode_image` call on the written file. -/
structure PdfSteps where
  openOk : Bool
  writeOk : Bool
  encodeOk : Bool

/-- `InvoiceExtractor.pdf_to_image` (lines 60–82 / 93–120) as a transition
on the presence of the temporary image file.  Result: (does the temporary
file exist when the function terminates, did it terminate normally).  The
function has no `try`/`finally`: `os.remove` runs only on the success
path. -/
def pdf_to_image_run (s : PdfSteps) (tempExists : Bool) : Bool × Bool :=
  if !s.openOk then (tempExists, false)
  else if !s.writeOk then (tempExists, false)
  else if !s.encodeOk then (true, false)
  else (false, true)

/-- Registry oracle answering every query with a success-status response
that contains no payer records (the groq parser classifies this
NotFound). -/
def emptyOkRegistry : String → NetResult := fun _ =>
  .ok 200 (some (.elem "SeznamNespolehlivyPlatceResponse" [] none
    [.elem "status" [("statusCode", "0")] none []]))

/-- Registry oracle answering every query with a success-status response
whose single record marks 12345678 as a reliable payer
(`nespolehlivyPlatce="NE"`). -/
def reliableRegistry : String → NetResult := fun _ =>
  .ok 200 (some (.elem "SeznamNespolehlivyPlatceResponse" [] none
    [ .elem "status" [("statusCode", "0")] none []
    , .elem "statusPlatceDPH" [("dic", "12345678"), ("nespolehlivyPlatce", "NE")] none [] ]))

/-- Stage functions for a run whose backend answers the JSON text of an
empty object for every image. -/
def stagesEmptyObj : Stages where
  normalize := fun f => .ok f
  backend := fun _ => .ok "{}"
  registry := fun _ => .fail

/-- Stage functions in which normalization raises on the file
"invoice2.pdf" (a corrupt document) and succeeds elsewhere; the backend
always answers "{}". -/
def corruptSecondStages : Stages where
  normalize := fun f => if f = "invoice2.pdf" then .error () else .ok f
  backend := fun _ => .ok "{}"
  registry := fun _ => .fail

/-- Stage functions whose backend raises on every call (caught inside
`process_invoice`). -/
def failingBackendStages : Stages where
  normalize := fun f => .ok f
  backend := fun _ => .error ()
  registry := fun _ => .fail

theorem vatAttrLoop_eq_classifyRecords (vat : String) (recs : List Xml) :
    vatAttrLoop vat recs = verdictBool (classifyRecords vat recs) := by
  induction recs with
  | nil => rfl
  | cons p ps ih =>
    simp only [vatAttrLoop, classifyRecords]
    split
    · split
      · rfl
      · split
        · rfl
        · split
          · rfl
          · rfl
    · exact ih

theorem parse_groq_eq_classify (xml : Option Xml) (vat : String) :
    parse_vat_response_groq xml vat = verdictBool (classify_parse_groq xml vat) := by
  cases xml with
  | none => rfl
  | some root =>
    simp only [parse_vat_response_groq, classify_parse_groq]
    cases (root.findDesc "status").head? with
    | none => rfl
    | some status_elem =>
      dsimp only
      split
      · by_cases hempty : (root.findDesc "statusPlatceDPH").isEmpty
        · rw [List.isEmpty_iff] at hempty
          rw [hempty]
          rfl
        · simp only [hempty, if_false, Bool.false_eq_true]
          exact vatAttrLoop_eq_classifyRecords vat _
      · rfl


theorem check_groq_eq_classify (registry : String → NetResult) (v : PyVal) :
    check_vat_reliability_groq registry v
      = verdictBool (classify_check_groq registry v) := by
  cases v with
  | nonStr => rfl
  | str s =>
    simp only [check_vat_reliability_groq, classify_check_groq]
    split
    · rfl
    · split
      · rfl
      · split
        · rfl
        · cases registry (pyDrop (pyUpper (pyStripSpaces s)) 2) with
          | fail => rfl
          | ok status body =>
            simp only
            split
            · exact parse_groq_eq_classify body _
            · rfl

/-- The reliability-flag branch of the groq record loop, in the code's
order of tests, agrees with the specification's enumeration order. -/
theorem flagBranch_eq_spec (f : String) :
    (if f = "NENALEZEN" then Verdict.notFound
     else if f = "ANO" then Verdict.unreliable
     else if f = "NE" ∨ f = "" then Verdict.reliable
     else Verdict.reliable)
    = specFlagVerdict f := by
  unfold specFlagVerdict
  by_cases h1 : f = "NENALEZEN"
  · subst h1; rfl
  · by_cases h2 : f = "ANO"
    · subst h2; rfl
    · by_cases h3 : f = "NE" ∨ f = ""
      · simp [h1, h2, h3]
      · simp [h1, h2, h3]

theorem classifyRecords_no_match (vat : String) (recs : List Xml)
    (h : ∀ r ∈ recs, r.getAttr "dic" "" ≠ vat) :
    classifyRecords vat recs = Verdict.notFound := by
  induction recs with
  | nil => rfl
  | cons p ps ih =>
    simp only [classifyRecords]
    rw [if_neg (h p (by simp))]
    exact ih (fun r hr => h r (by simp [hr]))

theorem classifyRecords_first_match (vat : String) (pre : List Xml) (r : Xml)
    (post : List Xml) (hpre : ∀ p ∈ pre, p.getAttr "dic" "" ≠ vat)
    (hr : r.getAttr "dic" "" = vat) :
    classifyRecords vat (pre ++ r :: post)
      = specFlagVerdict (r.getAttr "nespolehlivyPlatce" "") := by
  induction pre with
  | nil =>
    rw [List.nil_append]
    simp only [classifyRecords]
    rw [if_pos hr]
    exact flagBranch_eq_spec _
  | cons p ps ih =>
    rw [List.cons_append]
    simp only [classifyRecords]
    rw [if_neg (hpre p (by simp))]
    exact ih (fun q hq => hpre q (by simp [hq]))

/-- C1: for every registry XML response with success status code "0" and
every normalized numeric VAT body, the attribute-based response
interpretation (`parse_vat_response` of `invoice_extractor_groq.py`, whose
branch-wise verdict is `classify_parse_groq`) yields NotFound when no
`statusPlatceDPH` record is present, NotFound when records exist but none
carries a `dic` attribute equal to the body, and otherwise classifies the
first matching record's `nespolehlivyPlatce` flag exactly by the
specification's enumeration `specFlagVerdict` ("ANO" → Unreliable,
"NE"/empty → Reliable, "NENALEZEN" → NotFound, anything else →
Reliable). -/
theorem C1_success_classification (root : Xml) (vat : String) (status_elem : Xml)
    (hst : (root.findDesc "status").head? = some status_elem)
    (hcode : status_elem.getAttr "statusCode" "" = "0") :
    (root.findDesc "statusPlatceDPH" = [] →
        classify_parse_groq (some root) vat = Verdict.notFound)
    ∧ ((∀ r ∈ root.findDesc "statusPlatceDPH", r.getAttr "dic" "" ≠ vat) →
        classify_parse_groq (some root) vat = Verdict.notFound)
    ∧ (∀ pre r post, root.findDesc "statusPlatceDPH" = pre ++ r :: post →
        (∀ p ∈ pre, p.getAttr "dic" "" ≠ vat) → r.getAttr "dic" "" = vat →
        classify_parse_groq (some root) vat
          = specFlagVerdict (r.getAttr "nespolehlivyPlatce" "")) := by
  have hred : classify_parse_groq (some root) vat
      = classifyRecords vat (root.findDesc "statusPlatceDPH") := by
    unfold classify_parse_groq
    dsimp only
    rw [hst]
    simp [hcode]
  refine ⟨?_, ?_, ?_⟩
  · intro hnil
    rw [hred, hnil]
    rfl
  · intro hno
    rw [hred]
    exact classifyRecords_no_match vat _ hno
  · intro pre r post hsplit hpre hr
    rw [hred, hsplit]
    exact classifyRecords_first_match vat pre r post hpre hr

/-- Witness for C1 at a concrete response: success status, one record whose
`dic` attribute matches and whose flag is "ANO", classified Unreliable. -/
theorem C1_success_classification_witness :
    classify_parse_groq (some mixedResponse) "12345678" = Verdict.unreliable := by
  have h := (C1_success_classification mixedResponse "12345678"
      (Xml.elem "status" [("statusCode", "0")] none []) rfl rfl).2.2
      []
      (Xml.elem "statusPlatceDPH" [("dic", "12345678"), ("nespolehlivyPlatce", "ANO")] none [])
      [] rfl (by simp) rfl
  exact h

/-- C5: the two variants' registry-response interpretations are mutually
inconsistent: on `mixedResponse` (success status, one attribute-style
record flagging 12345678 as unreliable), the text-node variant of
`invoice_extractor.py` answers reliable (`some true`) while the
attribute-based variant of `invoice_extractor_groq.py` answers unreliable
(`some false`); the two functions are not extensionally equal. -/
theorem C5_variants_inconsistent :
    parse_vat_response (some mixedResponse) "12345678" = some true
    ∧ parse_vat_response_groq (some mixedResponse) "12345678" = some false
    ∧ parse_vat_response (some mixedResponse) "12345678"
        ≠ parse_vat_response_groq (some mixedResponse) "12345678" := by
  exact ⟨rfl, rfl, by decide⟩

/-- C4: a VAT identifier string whose normalized form (spaces stripped,
uppercased) does not start with "CZ", or whose remaining body is not a
string of 8 to 10 digits, is classified Ineligible, both
`check_vat_reliability` variants return `None` on it, and no network
request is issued: the result is the same under every registry oracle. -/
theorem C4_ineligible_no_network (v : String) (reg1 reg2 : String → NetResult)
    (h : (pyStartsWith (pyUpper (pyStripSpaces v)) "CZ") = false
       ∨ pyIsdigit (pyDrop (pyUpper (pyStripSpaces v)) 2) = false
       ∨ (pyDrop (pyUpper (pyStripSpaces v)) 2).length < 8
       ∨ 10 < (pyDrop (pyUpper (pyStripSpaces v)) 2).length) :
    classify_check_groq reg1 (PyVal.str v) = Verdict.ineligible
    ∧ check_vat_reliability_groq reg1 (PyVal.str v) = none
    ∧ check_vat_reliability reg1 (PyVal.str v) = none
    ∧ check_vat_reliability_groq reg1 (PyVal.str v)
        = check_vat_reliability_groq reg2 (PyVal.str v)
    ∧ check_vat_reliability reg1 (PyVal.str v)
        = check_vat_reliability reg2 (PyVal.str v) := by
  have key : ∀ reg : String → NetResult,
      classify_check_groq reg (PyVal.str v) = Verdict.ineligible
      ∧ check_vat_reliability_groq reg (PyVal.str v) = none
      ∧ check_vat_reliability reg (PyVal.str v) = none := by
    intro reg
    by_cases hv : v = ""
    · subst hv
      exact ⟨rfl, rfl, rfl⟩
    · by_cases hcz : pyStartsWith (pyUpper (pyStripSpaces v)) "CZ"
      · have hbody : !(pyIsdigit (pyDrop (pyUpper (pyStripSpaces v)) 2))
            ∨ (pyDrop (pyUpper (pyStripSpaces v)) 2).length < 8
            ∨ (pyDrop (pyUpper (pyStripSpaces v)) 2).length > 10 := by
          rcases h with h1 | h2 | h3 | h4
          · rw [hcz] at h1
            cases h1
          · exact Or.inl (by simp [h2])
          · exact Or.inr (Or.inl h3)
          · exact Or.inr (Or.inr h4)
        refine ⟨?_, ?_, ?_⟩ <;>
          simp only [classify_check_groq, check_vat_reliability_groq,
            check_vat_reliability, if_neg hv, hcz, Bool.not_true,
            Bool.false_eq_true, if_false, if_pos hbody]
      · have hcz' : (!(pyStartsWith (pyUpper (pyStripSpaces v)) "CZ")) = true := by
          simp [Bool.not_eq_true'] at hcz ⊢
          exact hcz
        refine ⟨?_, ?_, ?_⟩ <;>
          simp only [classify_check_groq, check_vat_reliability_groq,
            check_vat_reliability, if_neg hv, hcz', if_true]
  obtain ⟨k1, k2, k3⟩ := key reg1
  obtain ⟨_, k5, k6⟩ := key reg2
  exact ⟨k1, k2, k3, k2.trans k5.symm, k3.trans k6.symm⟩

/-- Witness for C4 at the specification's own example "CZXYZ1234"
(non-numeric body): Ineligible, and `None` from both variants. -/
theorem C4_ineligible_no_network_witness :
    classify_check_groq (fun _ => NetResult.fail) (PyVal.str "CZXYZ1234")
      = Verdict.ineligible
    ∧ check_vat_reliability_groq (fun _ => NetResult.fail) (PyVal.str "CZXYZ1234")
      = none
    ∧ check_vat_reliability (fun _ => NetResult.fail) (PyVal.str "CZXYZ1234")
      = none := by
  have h := C4_ineligible_no_network "CZXYZ1234" (fun _ => NetResult.fail)
    (fun _ => NetResult.fail) (Or.inr (Or.inl (by decide)))
  exact ⟨h.1, h.2.1, h.2.2.1⟩

/-- C10: both `check_vat_reliability` variants are total functions into
`Option Bool` (boolean verdict or the not-determined value `None` — by the
result type of the embedding): on a non-string input or the empty string
they return `None` without consulting the registry (the result is
identical under every oracle), and every network failure
(`requests.post` raising) and every response-parsing failure
(`ET.ParseError` on the body) is converted to `None`. -/
theorem C10_check_total (reg reg2 : String → NetResult) (s : String) :
    (check_vat_reliability reg PyVal.nonStr = none
      ∧ check_vat_reliability_groq reg PyVal.nonStr = none)
    ∧ (check_vat_reliability reg (PyVal.str "") = none
      ∧ check_vat_reliability_groq reg (PyVal.str "") = none)
    ∧ (check_vat_reliability reg PyVal.nonStr
        = check_vat_reliability reg2 PyVal.nonStr
      ∧ check_vat_reliability reg (PyVal.str "")
        = check_vat_reliability reg2 (PyVal.str ""))
    ∧ ((∀ q, reg q = NetResult.fail) →
        check_vat_reliability reg (PyVal.str s) = none
        ∧ check_vat_reliability_groq reg (PyVal.str s) = none)
    ∧ ((∀ q, reg q = NetResult.ok 200 none) →
        check_vat_reliability reg (PyVal.str s) = none
        ∧ check_vat_reliability_groq reg (PyVal.str s) = none) := by
  refine ⟨⟨rfl, rfl⟩, ⟨rfl, rfl⟩, ⟨rfl, rfl⟩, ?_, ?_⟩
  · intro hf
    by_cases hv : s = ""
    · subst hv
      exact ⟨rfl, rfl⟩
    · constructor <;>
      · simp only [check_vat_reliability, check_vat_reliability_groq, if_neg hv]
        split
        · rfl
        · split
          · rfl
          · rw [hf]
  · intro hf
    by_cases hv : s = ""
    · subst hv
      exact ⟨rfl, rfl⟩
    · constructor <;>
      · simp only [check_vat_reliability, check_vat_reliability_groq, if_neg hv]
        split
        · rfl
        · split
          · rfl
          · rw [hf]
            rfl

/-- Witness for C10: an always-raising network converts to `None`, and an
always-unparseable 200 response converts to `None`, at a concrete
well-formed identifier. -/
theorem C10_check_total_witness :
    check_vat_reliability (fun _ => NetResult.fail) (PyVal.str "CZ12345678") = none
    ∧ check_vat_reliability_groq (fun _ => NetResult.ok 200 none)
        (PyVal.str "CZ12345678") = none :=
  ⟨((C10_check_total (fun _ => NetResult.fail) (fun _ => NetResult.fail)
      "CZ12345678").2.2.2.1 (fun _ => rfl)).1,
   ((C10_check_total (fun _ => NetResult.ok 200 none)
      (fun _ => NetResult.ok 200 none) "CZ12345678").2.2.2.2 (fun _ => rfl)).2⟩

/-- C2 counterexample: the claim maps a NotFound verdict to a sentinel
string, but on a success response with no records (verdict NotFound) the
orchestrator stores the boolean `false` in `reliable_VAT_payer` — neither
the "not found" nor the "unable to verify" sentinel. -/
theorem C2_counterexample :
    classify_check_groq emptyOkRegistry (PyVal.str "CZ12345678") = Verdict.notFound
    ∧ reliableVatField emptyOkRegistry (some (Json.str "CZ12345678"))
        = FieldVal.bool false
    ∧ FieldVal.bool false ≠ FieldVal.str "not found"
    ∧ FieldVal.bool false ≠ FieldVal.str "Unable to verify" := by
  exact ⟨rfl, rfl, by decide, by decide⟩

/-- C2 (amended): for every successfully parsed record the orchestrator
sets `reliable_VAT_payer` from the check verdict as follows — Reliable ↦
boolean `true`, Unreliable ↦ boolean `false`, NotFound ↦ boolean `false`
(not a sentinel), ServiceUnavailable and Ineligible ↦ the sentinel string
"Unable to verify"; an absent or empty `vat_number` yields the sentinel
"No VAT number found" and no VAT check is run (the field is independent of
the registry oracle). -/
theorem C2_field_mapping (reg : String → NetResult) (vat_field : Option Json) :
    (vat_field = none →
        reliableVatField reg vat_field = FieldVal.str "No VAT number found"
        ∧ ∀ reg2, reliableVatField reg vat_field = reliableVatField reg2 vat_field)
    ∧ (vat_field = some (Json.str "") →
        reliableVatField reg vat_field = FieldVal.str "No VAT number found"
        ∧ ∀ reg2, reliableVatField reg vat_field = reliableVatField reg2 vat_field)
    ∧ (∀ s, s ≠ "" → vat_field = some (Json.str s) →
        reliableVatField reg vat_field =
          match classify_check_groq reg (PyVal.str s) with
          | Verdict.reliable => FieldVal.bool true
          | Verdict.unreliable => FieldVal.bool false
          | Verdict.notFound => FieldVal.bool false
          | Verdict.serviceUnavailable => FieldVal.str "Unable to verify"
          | Verdict.ineligible => FieldVal.str "Unable to verify") := by
  refine ⟨?_, ?_, ?_⟩
  · rintro rfl
    exact ⟨rfl, fun reg2 => rfl⟩
  · rintro rfl
    exact ⟨rfl, fun reg2 => rfl⟩
  · rintro s hs rfl
    have htr : jsonTruthy (Json.str s) = true := by
      simp [jsonTruthy, bne_iff_ne, hs]
    simp only [reliableVatField, htr, if_true, jsonToPy]
    rw [check_groq_eq_classify]
    cases classify_check_groq reg (PyVal.str s) <;> rfl

/-- Witness for C2: the absent-field case yields the "No VAT number found"
sentinel, and a reliable registry answer yields the boolean `true`. -/
theorem C2_field_mapping_witness :
    reliableVatField reliableRegistry none = FieldVal.str "No VAT number found"
    ∧ reliableVatField reliableRegistry (some (Json.str "CZ12345678"))
        = FieldVal.bool true := by
  constructor
  · exact ((C2_field_mapping reliableRegistry none).1 rfl).1
  · have h := (C2_field_mapping reliableRegistry
      (some (Json.str "CZ12345678"))).2.2 "CZ12345678" (by decide) rfl
    exact h.trans (by rfl)

/-- Key list after a Python dict assignment: unchanged when the key was
present, extended by the key at the end otherwise. -/
theorem recordKeys_setKey (kvs : List (String × Json)) (k : String) (v : Json) :
    recordKeys (setKey kvs k v)
      = (if k ∈ recordKeys kvs then recordKeys kvs
         else recordKeys kvs ++ [k]) := by
  by_cases hmem : k ∈ recordKeys kvs
  · rw [if_pos hmem]
    have hany : kvs.any (fun p => p.1 == k) = true := by
      simp only [recordKeys, List.mem_map] at hmem
      rcases hmem with ⟨p, hp, hpk⟩
      exact List.any_eq_true.mpr ⟨p, hp, by simp [hpk]⟩
    unfold setKey
    rw [if_pos hany]
    unfold recordKeys
    rw [List.map_map]
    apply List.map_congr_left
    intro p hp
    by_cases hpk : p.1 = k
    · simp [hpk]
    · simp [hpk]
  · rw [if_neg hmem]
    have hany : kvs.any (fun p => p.1 == k) = false := by
      rw [List.any_eq_false]
      intro p hp
      simp only [beq_iff_eq]
      intro hpk
      exact hmem (by simp only [recordKeys, List.mem_map]; exact ⟨p, hp, hpk⟩)
    unfold setKey
    rw [if_neg (by simp [hany])]
    simp [recordKeys]

/-- C3 counterexample: a backend response that decodes to the empty JSON
object reaches persistence unvalidated — the persisted record has the
single key `reliable_VAT_payer`, not the twelve `InvoiceRecord` keys. -/
theorem C3_counterexample :
    process_all_invoices stagesEmptyObj ["invoice.png"]
      = Except.ok [("invoice.png",
          some [("reliable_VAT_payer", Json.str "No VAT number found")])]
    ∧ recordKeys [("reliable_VAT_payer", Json.str "No VAT number found")]
        ≠ invoiceRecordKeys := by
  exact ⟨rfl, by decide⟩

/-- C3 (amended): no twelve-key validation is performed.  For every raw
backend text whose fence-stripped form decodes to a JSON object, the
record that reaches persistence is exactly the decoded object with
`reliable_VAT_payer` set: its key list is the backend's key list, extended
by `reliable_VAT_payer` at the end when that key was missing. -/
theorem C3_record_keys (reg : String → NetResult) (raw : String)
    (kvs : List (String × Json))
    (h : jsonParse (cleanResponse raw) = some (Json.obj kvs)) :
    ∃ v, processResponse reg raw = ParseOutcome.record (setKey kvs "reliable_VAT_payer" v)
      ∧ recordKeys (setKey kvs "reliable_VAT_payer" v)
          = (if "reliable_VAT_payer" ∈ recordKeys kvs then recordKeys kvs
             else recordKeys kvs ++ ["reliable_VAT_payer"]) := by
  refine ⟨fieldJson (reliableVatField reg (lookupKey kvs "vat_number")), ?_, ?_⟩
  · simp only [processResponse, processDecoded]
    rw [h]
  · exact recordKeys_setKey kvs "reliable_VAT_payer" _

/-- Witness for C3 at the backend text "{}": the persisted record is the
empty object plus `reliable_VAT_payer`. -/
theorem C3_record_keys_witness :
    ∃ v, processResponse (fun _ => NetResult.fail) "{}"
        = ParseOutcome.record (setKey [] "reliable_VAT_payer" v)
      ∧ recordKeys (setKey [] "reliable_VAT_payer" v)
          = (if "reliable_VAT_payer" ∈ recordKeys ([] : List (String × Json))
             then recordKeys ([] : List (String × Json))
             else recordKeys ([] : List (String × Json)) ++ ["reliable_VAT_payer"]) :=
  C3_record_keys (fun _ => NetResult.fail) "{}" [] (by rfl)

/-- C6 counterexample: the decoded value `[]` is not a mapping, so the
response handler fails — but through the outer `except Exception` branch
(`TypeError` on item assignment), whose outcome `otherError` retains no
response text; the claim's "offending raw text is retained in the failure
detail" does not hold for this failure. -/
theorem C6_counterexample :
    jsonParse (cleanResponse "[]") = some (Json.arr [])
    ∧ processResponse (fun _ => NetResult.fail) "[]" = ParseOutcome.otherError :=
  ⟨rfl, rfl⟩

/-- C6 (amended): the response handler produces no record exactly when
JSON decoding of the fence-stripped, trimmed text fails or when the
decoded value is not a mapping.  The failing text is retained in the
failure detail only in the decode-failure case (and it is the
fence-stripped text, not the raw text); a decoded non-mapping value fails
through the generic exception path, which retains nothing. -/
theorem C6_malformed_response (reg : String → NetResult) (raw : String) :
    (∀ kvs, processResponse reg raw = ParseOutcome.record kvs →
        ∃ kvs0, jsonParse (cleanResponse raw) = some (Json.obj kvs0))
    ∧ (jsonParse (cleanResponse raw) = none →
        processResponse reg raw = ParseOutcome.jsonError (cleanResponse raw))
    ∧ (∀ j, jsonParse (cleanResponse raw) = some j →
        (∀ kvs, j ≠ Json.obj kvs) →
        processResponse reg raw = ParseOutcome.otherError) := by
  simp only [processResponse, processDecoded]
  cases hp : jsonParse (cleanResponse raw) with
  | none =>
    refine ⟨?_, ?_, ?_⟩
    · intro kvs h
      cases h
    · intro _
      rfl
    · intro j hj
      cases hj
  | some j =>
    cases j with
    | obj kvs0 =>
      refine ⟨?_, ?_, ?_⟩
      · intro kvs _
        exact ⟨kvs0, rfl⟩
      · intro h
        cases h
      · intro j' hj' hne
        cases hj'
        exact absurd rfl (hne kvs0)
    | null =>
      refine ⟨?_, ?_, ?_⟩
      · intro kvs h
        cases h
      · intro h
        cases h
      · intro j' hj' hne
        rfl
    | bool b =>
      refine ⟨?_, ?_, ?_⟩
      · intro kvs h
        cases h
      · intro h
        cases h
      · intro j' hj' hne
        rfl
    | num m =>
      refine ⟨?_, ?_, ?_⟩
      · intro kvs h
        cases h
      · intro h
        cases h
      · intro j' hj' hne
        rfl
    | str s =>
      refine ⟨?_, ?_, ?_⟩
      · intro kvs h
        cases h
      · intro h
        cases h
      · intro j' hj' hne
        rfl
    | arr xs =>
      refine ⟨?_, ?_, ?_⟩
      · intro kvs h
        cases h
      · intro h
        cases h
      · intro j' hj' hne
        rfl

/-- Witness for C6 at the undecodable text "not json": the failure is the
`JSONDecodeError` branch carrying the (already stripped) text. -/
theorem C6_malformed_response_witness :
    processResponse (fun _ => NetResult.fail) "not json"
      = ParseOutcome.jsonError "not json" := by
  have h := (C6_malformed_response (fun _ => NetResult.fail) "not json").2.1 (by rfl)
  exact h.trans (by rfl)

/-- C7 counterexample: a response fenced with a bare triple backtick (no
language tag) is *not* stripped at the front — only the exact seven-
character marker "```json" is — so the fenced form of "{}" fails to decode
while the unfenced form parses to a record. -/
theorem C7_counterexample :
    cleanResponse "```\n{}\n```" = "```\n{}"
    ∧ jsonParse "```\n{}" = none
    ∧ processResponse (fun _ => NetResult.fail) "```\n{}\n```"
        = ParseOutcome.jsonError "```\n{}"
    ∧ processResponse (fun _ => NetResult.fail) "{}"
        = ParseOutcome.record [("reliable_VAT_payer", Json.str "No VAT number found")] :=
  ⟨rfl, rfl, rfl, rfl⟩

/-- C7 (amended): the handler strips exactly the leading seven-character
marker "```json" (not a bare or otherwise-tagged fence) and a trailing
"```", then trims; for raw text carrying both markers the outcome is the
outcome of the inner text stripped of the markers and trimmed, i.e. the
"```json"-fenced and unfenced forms of the same object decode to the same
record. -/
theorem C7_fence_strip (reg : String → NetResult) (raw : String)
    (h1 : pyStartsWith (pyStrip raw) "```json" = true)
    (h2 : pyEndsWith (pyDrop (pyStrip raw) 7) "```" = true) :
    cleanResponse raw = pyStrip (pyDropRight (pyDrop (pyStrip raw) 7) 3)
    ∧ processResponse reg raw
        = processDecoded reg (pyStrip (pyDropRight (pyDrop (pyStrip raw) 7) 3)) := by
  have hc : cleanResponse raw = pyStrip (pyDropRight (pyDrop (pyStrip raw) 7) 3) := by
    simp only [cleanResponse]
    rw [if_pos h1, if_pos h2]
  refine ⟨hc, ?_⟩
  simp only [processResponse]
  rw [hc]

/-- Witness for C7: a "```json"-fenced empty object is stripped and
decodes to the same record as the unfenced text. -/
theorem C7_fence_strip_witness :
    processResponse (fun _ => NetResult.fail) "```json {} ```"
      = ParseOutcome.record [("reliable_VAT_payer", Json.str "No VAT number found")] := by
  have h := (C7_fence_strip (fun _ => NetResult.fail) "```json {} ```"
    (by rfl) (by rfl)).2
  exact h.trans (by rfl)

/-- C8 counterexample: `pdf_to_image`/`encode_image` run outside the `try`
block of `process_invoice`, so a normalization failure propagates into the
bare loop of `process_all_invoices` and aborts the batch: with file 2
corrupt, the batch of three raises even though file 3 alone processes
fine — files after the failed one are not processed. -/
theorem C8_counterexample :
    process_invoice corruptSecondStages "invoice3.png"
      = Except.ok (some [("reliable_VAT_payer", Json.str "No VAT number found")])
    ∧ process_all_invoices corruptSecondStages
        ["invoice1.png", "invoice2.pdf", "invoice3.png"]
      = Except.error () :=
  ⟨rfl, rfl⟩

/-- C8 (amended): the partial-failure policy holds for every stage inside
the `try` block (extraction call, decoding, VAT check) but not for
normalization: whenever normalization succeeds on every file of the batch,
the batch completes with one recorded outcome per file in order — recorded
failures (`none`) included — and never aborts. -/
theorem C8_partial_failure (st : Stages) (files : List String)
    (h : ∀ f ∈ files, ∃ img, st.normalize f = Except.ok img) :
    ∃ rs, process_all_invoices st files = Except.ok rs
      ∧ rs.map Prod.fst = files
      ∧ ∀ f ∈ files, ∃ r, (f, r) ∈ rs ∧ process_invoice st f = Except.ok r := by
  induction files with
  | nil => exact ⟨[], rfl, rfl, by simp⟩
  | cons f fs ih =>
    obtain ⟨img, himg⟩ := h f (by simp)
    obtain ⟨rs, hrs, hmap, hmem⟩ := ih (fun g hg => h g (by simp [hg]))
    have hok : ∃ r, process_invoice st f = Except.ok r := by
      cases hb : st.backend img with
      | error e => exact ⟨none, by simp [process_invoice, himg, hb]⟩
      | ok raw =>
        cases hp : processResponse st.registry raw with
        | record kvs => exact ⟨some kvs, by simp [process_invoice, himg, hb, hp]⟩
        | jsonError d => exact ⟨none, by simp [process_invoice, himg, hb, hp]⟩
        | otherError => exact ⟨none, by simp [process_invoice, himg, hb, hp]⟩
    obtain ⟨r, hr⟩ := hok
    refine ⟨(f, r) :: rs, ?_, ?_, ?_⟩
    · simp only [process_all_invoices, hr, hrs]
    · simp [hmap]
    · intro g hg
      rcases List.mem_cons.mp hg with hg | hg
      · subst hg
        exact ⟨r, by simp, hr⟩
      · obtain ⟨r2, hr2, hp2⟩ := hmem g hg
        exact ⟨r2, by simp [hr2], hp2⟩

/-- Witness for C8: with an always-failing backend the two-file batch
completes with a recorded failure for each file. -/
theorem C8_partial_failure_witness :
    ∃ rs, process_all_invoices failingBackendStages ["a.pdf", "b.png"] = Except.ok rs
      ∧ rs.map Prod.fst = ["a.pdf", "b.png"]
      ∧ ∀ f ∈ ["a.pdf", "b.png"], ∃ r, (f, r) ∈ rs
          ∧ process_invoice failingBackendStages f = Except.ok r :=
  C8_partial_failure failingBackendStages ["a.pdf", "b.png"]
    (fun f _ => ⟨f, rfl⟩)

/-- C9 counterexample: when the `encode_image` step of `pdf_to_image`
raises after the temporary image has been written, the function terminates
exceptionally with the temporary file still present (`os.remove` is never
reached — there is no `try`/`finally`). -/
theorem C9_counterexample :
    pdf_to_image_run ⟨true, true, false⟩ false = (true, false) := rfl

/-- C9 (amended): starting from a state without the temporary file, the
temporary file survives `pdf_to_image` exactly when the render and write
steps succeed and the subsequent encode step fails; in particular it is
removed on the successful path, but not on every exit path. -/
theorem C9_temp_release (s : PdfSteps) :
    (pdf_to_image_run s false).1 = (s.openOk && s.writeOk && !s.encodeOk) := by
  cases s with
  | mk o w e => cases o <;> cases w <;> cases e <;> rfl
